import Mathlib

/-!
Verification of the shared-memory Acceptor protocol engine implemented in
`backend/python_bidirectional_ipc_script.py`.

The development shallowly embeds the parts of the script that the claims
are about:

* the `ctypes.Structure` layout of `SharedIPCBidirectional` (modelled with
  the standard C struct layout rules that `ctypes` follows: each field is
  placed at the next offset aligned to the field's alignment, and the
  total size is rounded up to the structure's alignment);
* `process_data_from_creator`, `send_data_to_creator` and the main polling
  loop, modelled as pure functions that return the sequence of shared-memory
  write events they perform.  Reads of fields written concurrently by the
  Creator peer (`a_to_c_status`) and of the global `running` flag are
  modelled as observation streams indexed by the poll count, since each
  read may see a fresh value deposited by the other process or by a signal
  handler.  The unbounded `while` wait in the oversize branch of
  `send_data_to_creator` is modelled with explicit fuel, returning `none`
  when the wait is still running after `fuel` polls.
-/

/-- One field of a C/ctypes structure: its size and alignment in bytes. -/
structure CField where
  size : Nat
  align : Nat
  deriving Repr, DecidableEq

/-- Round `off` up to the next multiple of `a` (no-op for `a = 0`). -/
def alignUp (off a : Nat) : Nat :=
  if a = 0 then off else ((off + a - 1) / a) * a

/-- Total size of a C/ctypes structure with the given fields: fold the
fields placing each at the next aligned offset, then round the end offset
up to the structure alignment (the maximum field alignment). -/
def structSizeof (fs : List CField) : Nat :=
  let p := fs.foldl (fun (acc : Nat × Nat) f =>
    (alignUp acc.1 f.align + f.size, max acc.2 f.align)) (0, 1)
  alignUp p.1 p.2

/-- Value of `ctypes.sizeof(ctypes.c_int32)`. -/
def int32Size : Nat := 4

/-- The `_padding1` byte count computed in the script:
`128 - ctypes.sizeof(ctypes.c_int32)*2 - ctypes.sizeof(ctypes.c_size_t)*4`,
as a function of `sizeof(c_size_t)`. -/
def paddingSize (sizeT : Nat) : Nat := 128 - int32Size * 2 - sizeT * 4

/-- The field list of `class SharedIPCBidirectional(ctypes.Structure)`:
`c_to_a_command : c_int32`, `c_to_a_data_len : c_size_t`,
`a_to_c_status : c_int32`, `a_to_c_data_len : c_size_t`,
`defined_c2a_buffer_size : c_size_t`, `defined_a2c_buffer_size : c_size_t`,
`_padding1 : c_char * paddingSize`, parametrised by `sizeof(c_size_t)`. -/
def sharedIPCBidirectionalFields (sizeT : Nat) : List CField :=
  [⟨int32Size, int32Size⟩, ⟨sizeT, sizeT⟩,
   ⟨int32Size, int32Size⟩, ⟨sizeT, sizeT⟩,
   ⟨sizeT, sizeT⟩, ⟨sizeT, sizeT⟩,
   ⟨paddingSize sizeT, 1⟩]

/-- Value of `ctypes.sizeof(SharedIPCBidirectional)` as a function of
`sizeof(c_size_t)`. -/
def sizeofSharedIPCBidirectional (sizeT : Nat) : Nat :=
  structSizeof (sharedIPCBidirectionalFields sizeT)

/-- Value of `SHM_CONTROL_BLOCK_SIZE = ctypes.sizeof(SharedIPCBidirectional)` on the
64-bit target platform (`sizeof(c_size_t) = 8`). -/
def SHM_CONTROL_BLOCK_SIZE : Nat := sizeofSharedIPCBidirectional 8

/-- The control-block fields of the shared segment, as the Acceptor sees
them (`shm_struct`).  Commands and statuses are 32-bit signed ints,
lengths are unsigned (`c_size_t`), modelled as `Int` and `Nat`. -/
structure ShmState where
  c_to_a_command : Int
  c_to_a_data_len : Nat
  a_to_c_status : Int
  a_to_c_data_len : Nat
  deriving Repr, DecidableEq

/-- A single shared-memory write performed by the Acceptor. -/
inductive Event where
  /-- A read of `data_len` bytes of the C2A payload buffer at `offset`
  (recorded so that claims about "no read of the C2A buffer" are
  expressible; it is the only read event the Acceptor performs on a
  payload buffer). -/
  | readC2A (offset len : Nat)
  /-- A payload write of `data` into the mapped region at `offset`
  (the `mmap_obj.seek` / `mmap_obj.write` pair). -/
  | writeA2C (offset : Nat) (data : List Nat)
  /-- Assignment `shm_struct.a_to_c_data_len = n` -/
  | setLen (n : Nat)
  /-- Assignment `shm_struct.a_to_c_status = s` -/
  | setStatus (s : Int)
  /-- Assignment `shm_struct.c_to_a_command = 0` (acknowledgement) -/
  | ackCommand
  deriving Repr, DecidableEq

/-- Effect of one write event on the control-block fields. -/
def applyEvent (s : ShmState) : Event → ShmState
  | Event.setLen n => { s with a_to_c_data_len := n }
  | Event.setStatus v => { s with a_to_c_status := v }
  | Event.ackCommand => { s with c_to_a_command := 0 }
  | _ => s

/-- Effect of a sequence of write events, first event applied first. -/
def applyEvents (s : ShmState) (es : List Event) : ShmState :=
  es.foldl applyEvent s

/-- The configuration the Acceptor derives at startup: the buffer sizes
read from the control block (`ACTUAL_C2A_BUFFER_SIZE`,
`ACTUAL_A2C_BUFFER_SIZE`) and the mapped region's size
(`mmap_obj.size()`, i.e. the fstat-reported segment size). -/
structure Config where
  c2aCap : Nat
  a2cCap : Nat
  mmapSize : Nat
  deriving Repr, DecidableEq

/-- Outcome of the timed busy-wait of `send_data_to_creator`
(`while shm_struct.a_to_c_status != 0:` with the 5-second timeout). -/
inductive WaitOutcome where
  | ready
  | shutdown
  | timeout
  deriving Repr, DecidableEq

/-- The timed busy-wait (script lines 180-184): on each poll, first check
the observed `a_to_c_status`; exit `ready` on 0; otherwise exit `shutdown`
when the observed `running` flag is false; otherwise exit `timeout` once
the 5-second budget (modelled as a poll budget `fuel`) is exhausted, else
sleep 5 ms and poll again.  `status i` / `running i` are the values the
`i`-th poll observes. -/
def timedWait (status : Nat → Int) (running : Nat → Bool) :
    Nat → Nat → WaitOutcome
  | i, fuel =>
    if status i = 0 then WaitOutcome.ready
    else if running i = false then WaitOutcome.shutdown
    else match fuel with
      | 0 => WaitOutcome.timeout
      | fuel' + 1 => timedWait status running (i + 1) fuel'

/-- The untimed busy-wait of the oversize branch (script line 173:
`while shm_struct.a_to_c_status != 0 and running: time.sleep(0.005)`
followed by `if not running: return False`).  The loop exits only when the
observed status is 0 or `running` is false; there is no timeout.  The
result is `some r` where `r` is the `running` value at the exiting poll
(`true` means the code proceeds to the error signal, `false` means it
returns failure immediately); `none` means the wait is still looping after
`fuel` polls. -/
def untimedWait (status : Nat → Int) (running : Nat → Bool) :
    Nat → Nat → Option Bool
  | _, 0 => none
  | i, fuel + 1 =>
    if status i = 0 ∨ running i = false then some (running i)
    else untimedWait status running (i + 1) fuel

/-- Poll budget corresponding to the 5-second timeout at 5 ms per poll. -/
def TIMED_WAIT_POLLS : Nat := 1000

/-- Payload `b"Error: Creator data too large"` of the oversize branch. -/
def errCreatorTooLargeStr : String := "Error: Creator data too large"

/-- Payload `b"Error: Failed to get C2A buffer view"`. -/
def errBufferViewStr : String := "Error: Failed to get C2A buffer view"

/-- Payload `b"Acknowledged empty Creator message"`. -/
def ackEmptyStr : String := "Acknowledged empty Creator message"

/-- Byte list of an ASCII string literal of the script. -/
def strBytes (s : String) : List Nat := s.toList.map Char.toNat

def errCreatorTooLarge : List Nat := strBytes errCreatorTooLargeStr

def errBufferView : List Nat := strBytes errBufferViewStr

def ackEmpty : List Nat := strBytes ackEmptyStr

/-- Model of `process_data_from_creator(data_len)` (script lines 122-155).  `mem b`
is the byte of the mapped region at offset `b`; `processor` is the opaque
content-processing routine (the placeholder image generation, out of the
protocol's scope).  Returns the response bytes together with the list of
payload-buffer read events performed:

* `data_len = 0`: return the fixed acknowledgement payload, no read;
* `data_len > ACTUAL_C2A_BUFFER_SIZE`: return the fixed oversize error
  payload, no read;
* otherwise `get_buffer_view(SHM_CONTROL_BLOCK_SIZE, data_len)` checks the
  slice against the mapped size and, when in bounds, the `data_len` bytes
  at offset `SHM_CONTROL_BLOCK_SIZE` are read and handed to the
  processor. -/
def process_data_from_creator (cfg : Config) (mem : Nat → Nat)
    (processor : List Nat → List Nat) (data_len : Nat) :
    List Nat × List Event :=
  if data_len > 0 then
    if data_len > cfg.c2aCap then
      (errCreatorTooLarge, [])
    else if SHM_CONTROL_BLOCK_SIZE + data_len ≤ cfg.mmapSize then
      let input := (List.range data_len).map
        (fun i => mem (SHM_CONTROL_BLOCK_SIZE + i))
      (processor input, [Event.readC2A SHM_CONTROL_BLOCK_SIZE data_len])
    else
      (errBufferView, [])
  else
    (ackEmpty, [])

/-- Model of `send_data_to_creator(data_bytes)` (script lines 157-232), as the pair
(result, write events) — or `none` when the untimed wait of the oversize
branch is still looping after `fuel` polls (that wait has no timeout):

* oversize response (`data_len > ACTUAL_A2C_BUFFER_SIZE`): run the untimed
  wait; if it exits on shutdown return failure with no writes, otherwise
  signal the error (`a_to_c_data_len = 0`, then `a_to_c_status = -1`) and
  return failure, writing no payload bytes;
* otherwise run the timed wait; on shutdown or timeout return failure with
  no writes; on ready, check the write bound
  (`mmap_obj.size() < a2c_buffer_offset + data_len` aborts before
  writing), then write the payload at
  `SHM_CONTROL_BLOCK_SIZE + ACTUAL_C2A_BUFFER_SIZE`, set
  `a_to_c_data_len`, then set `a_to_c_status = 1`, and return success. -/
def send_data_to_creator (cfg : Config) (status : Nat → Int)
    (running : Nat → Bool) (fuel : Nat) (data : List Nat) :
    Option (Bool × List Event) :=
  let data_len := data.length
  let a2c_buffer_offset := SHM_CONTROL_BLOCK_SIZE + cfg.c2aCap
  if data_len > cfg.a2cCap then
    match untimedWait status running 0 fuel with
    | none => none
    | some false => some (false, [])
    | some true => some (false, [Event.setLen 0, Event.setStatus (-1)])
  else
    match timedWait status running 0 TIMED_WAIT_POLLS with
    | WaitOutcome.shutdown => some (false, [])
    | WaitOutcome.timeout => some (false, [])
    | WaitOutcome.ready =>
      if cfg.mmapSize < a2c_buffer_offset + data_len then
        some (false, [])
      else
        some (true, [Event.writeA2C a2c_buffer_offset data,
                     Event.setLen data_len, Event.setStatus 1])

/-- Whether the polling loop continues or exits after an iteration. -/
inductive LoopControl where
  | next
  | exit
  deriving Repr, DecidableEq

/-- One iteration of the main polling loop (script lines 339-368), given
the command and `c_to_a_data_len` values read from the control block at
the start of the iteration.  Returns the loop control together with the
write events of the iteration, or `none` when `send_data_to_creator`
never returned (untimed wait exhausting its fuel):

* command 1 (DataReady): process, send the response through
  `send_data_to_creator`, then acknowledge (`c_to_a_command = 0`);
* command 99 (Shutdown): acknowledge and exit the loop;
* command 0 (Idle): sleep, no events;
* any other command: log, acknowledge, continue. -/
def loop_step (cfg : Config) (mem : Nat → Nat)
    (processor : List Nat → List Nat) (status : Nat → Int)
    (running : Nat → Bool) (fuel : Nat) (command : Int)
    (data_len : Nat) : Option (LoopControl × List Event) :=
  if command = 1 then
    let pr := process_data_from_creator cfg mem processor data_len
    match send_data_to_creator cfg status running fuel pr.1 with
    | none => none
    | some r => some (LoopControl.next, pr.2 ++ r.2 ++ [Event.ackCommand])
  else if command = 99 then
    some (LoopControl.exit, [Event.ackCommand])
  else if command = 0 then
    some (LoopControl.next, [])
  else
    some (LoopControl.next, [Event.ackCommand])

/-- The main polling loop (`while running:` of script lines 339-378),
from iteration `i` with a budget of `fuel` iterations.  `cmds i` and
`dlens i` are the `c_to_a_command` / `c_to_a_data_len` values read at
iteration `i`; `stats i` / `runs i` are the observation streams handed to
the waits inside iteration `i`'s send; `running i` is the global flag as
read by the `while` condition of iteration `i` (the Creator and the
signal handler write these concurrently, hence the streams).  Returns
`some 0` when the loop exits (shutdown command or cleared `running`
flag) — `main_loop` then runs its cleanup and returns, and the script
ends with exit status 0 — and `none` when the budget is exhausted or an
iteration's send never returned. -/
def run_loop (cfg : Config) (mem : Nat → Nat)
    (processor : List Nat → List Nat) (cmds : Nat → Int)
    (dlens : Nat → Nat) (stats : Nat → Nat → Int)
    (runs : Nat → Nat → Bool) (sendFuel : Nat) (running : Nat → Bool) :
    Nat → Nat → Option Nat
  | _, 0 => none
  | i, fuel + 1 =>
    if running i = false then some 0
    else
      match loop_step cfg mem processor (stats i) (runs i) sendFuel
          (cmds i) (dlens i) with
      | none => none
      | some (LoopControl.exit, _) => some 0
      | some (LoopControl.next, _) =>
        run_loop cfg mem processor cmds dlens stats runs sendFuel running
          (i + 1) fuel

/-- Constant `attach_attempts = 5` (script line 242). -/
def attach_attempts : Nat := 5

/-- The retry loop around `shm_open` (script lines 244-258), from attempt
index `attempt` with `remaining` attempts left.  `openOk k` tells whether
the `k`-th `shm_open` call succeeds (the segment exists by then).
Returns the index of the succeeding attempt, or `none` when every
attempt failed (the script then calls `sys.exit(1)`). -/
def attachLoop (openOk : Nat → Bool) : Nat → Nat → Option Nat
  | _, 0 => none
  | attempt, remaining + 1 =>
    if openOk attempt then some attempt
    else attachLoop openOk (attempt + 1) remaining

/-- The whole attachment phase: up to `attach_attempts` tries. -/
def attach (openOk : Nat → Bool) : Option Nat :=
  attachLoop openOk 0 attach_attempts

/-- The backoff delay slept after the `k`-th failed attempt, in seconds:
`attach_delay = 0.1` initially, `attach_delay *= 1.5` after each failure
(script lines 243, 257-258). -/
def attach_delay (k : Nat) : ℚ := (1 / 10 : ℚ) * (3 / 2) ^ k

/-- A resource released on a fatal startup error. -/
inductive Cleanup where
  | closeMmap
  | closeFd
  deriving Repr, DecidableEq

/-- Result of the startup phase of `main_loop` (script lines 239-328). -/
inductive StartupResult where
  /-- Case `sys.exit(exitCode)` after releasing `cleanup` (in order). -/
  | fatal (exitCode : Nat) (cleanup : List Cleanup)
  /-- Startup succeeded with the derived configuration. -/
  | ok (cfg : Config)
  deriving Repr, DecidableEq

/-- The startup phase of `main_loop`: attach with retry (exit 1 on
failure), fstat the segment (exit 1 on failure, closing the descriptor),
mmap the reported size (exit 1 on failure, closing the descriptor),
construct the control structure over the mapping (exit 1 on failure,
closing mapping and descriptor), then read the defined buffer sizes; a
zero size raises `ValueError`, which is caught: the mapping and the
descriptor are released and the process exits 1.  Otherwise startup
yields the configuration; an undersized mapping only logs warnings. -/
def startup (openOk : Nat → Bool) (fstatOk : Bool) (reportedSize : Nat)
    (mmapOk : Bool) (structOk : Bool) (c2aSize a2cSize : Nat) :
    StartupResult :=
  match attach openOk with
  | none => StartupResult.fatal 1 []
  | some _ =>
    if fstatOk = false then StartupResult.fatal 1 [Cleanup.closeFd]
    else if mmapOk = false then StartupResult.fatal 1 [Cleanup.closeFd]
    else if structOk = false then
      StartupResult.fatal 1 [Cleanup.closeMmap, Cleanup.closeFd]
    else if c2aSize = 0 ∨ a2cSize = 0 then
      StartupResult.fatal 1 [Cleanup.closeMmap, Cleanup.closeFd]
    else
      StartupResult.ok ⟨c2aSize, a2cSize, reportedSize⟩

/-- Model of `main_loop` end to end: run startup; on a fatal startup error the
process exits with that code, otherwise enter the polling loop (whose
normal exit yields status 0).  `none` means the loop had not terminated
within its budget. -/
def acceptor_main (openOk : Nat → Bool) (fstatOk : Bool)
    (reportedSize : Nat) (mmapOk : Bool) (structOk : Bool)
    (c2aSize a2cSize : Nat) (mem : Nat → Nat)
    (processor : List Nat → List Nat) (cmds : Nat → Int)
    (dlens : Nat → Nat) (stats : Nat → Nat → Int)
    (runs : Nat → Nat → Bool) (sendFuel : Nat) (running : Nat → Bool)
    (loopFuel : Nat) : Option Nat :=
  match startup openOk fstatOk reportedSize mmapOk structOk c2aSize
      a2cSize with
  | StartupResult.fatal code _ => some code
  | StartupResult.ok cfg =>
    run_loop cfg mem processor cmds dlens stats runs sendFuel running 0
      loopFuel

/-! ## Helper lemmas -/

/-- Exhaustive description of the outcomes of `send_data_to_creator`:
failure with no writes (shutdown, timeout or bounds abort), the oversize
error signal, or the successful write-length-status sequence. -/
theorem send_inv {cfg : Config} {status : Nat → Int} {running : Nat → Bool}
    {fuel : Nat} {data : List Nat} {r : Bool} {evts : List Event}
    (h : send_data_to_creator cfg status running fuel data = some (r, evts)) :
    (r = false ∧ evts = []) ∨
    (r = false ∧ evts = [Event.setLen 0, Event.setStatus (-1)] ∧
      data.length > cfg.a2cCap ∧
      untimedWait status running 0 fuel = some true) ∨
    (r = true ∧ data.length ≤ cfg.a2cCap ∧
      SHM_CONTROL_BLOCK_SIZE + cfg.c2aCap + data.length ≤ cfg.mmapSize ∧
      evts = [Event.writeA2C (SHM_CONTROL_BLOCK_SIZE + cfg.c2aCap) data,
              Event.setLen data.length, Event.setStatus 1]) := by
  simp only [send_data_to_creator] at h
  by_cases hfit : data.length > cfg.a2cCap
  · rw [if_pos hfit] at h
    cases hw : untimedWait status running 0 fuel with
    | none => rw [hw] at h; simp at h
    | some b =>
      rw [hw] at h
      cases b with
      | false =>
        simp only [Option.some.injEq, Prod.mk.injEq] at h
        exact Or.inl ⟨h.1.symm, h.2.symm⟩
      | true =>
        simp only [Option.some.injEq, Prod.mk.injEq] at h
        exact Or.inr (Or.inl ⟨h.1.symm, h.2.symm, hfit, rfl⟩)
  · rw [if_neg hfit] at h
    cases hw : timedWait status running 0 TIMED_WAIT_POLLS with
    | shutdown =>
      rw [hw] at h
      simp only [Option.some.injEq, Prod.mk.injEq] at h
      exact Or.inl ⟨h.1.symm, h.2.symm⟩
    | timeout =>
      rw [hw] at h
      simp only [Option.some.injEq, Prod.mk.injEq] at h
      exact Or.inl ⟨h.1.symm, h.2.symm⟩
    | ready =>
      rw [hw] at h
      by_cases hb : cfg.mmapSize < SHM_CONTROL_BLOCK_SIZE + cfg.c2aCap + data.length
      · rw [if_pos hb] at h
        simp only [Option.some.injEq, Prod.mk.injEq] at h
        exact Or.inl ⟨h.1.symm, h.2.symm⟩
      · rw [if_neg hb] at h
        simp only [Option.some.injEq, Prod.mk.injEq] at h
        exact Or.inr (Or.inr ⟨h.1.symm, Nat.le_of_not_lt hfit,
          Nat.le_of_not_lt hb, h.2.symm⟩)

/-- If the observed `a_to_c_status` is always 1 (the Creator never
consumes) and `running` stays true, the untimed wait of the oversize
branch is still looping after any number of polls. -/
theorem untimedWait_stuck :
    ∀ (fuel i : Nat),
      untimedWait (fun _ => 1) (fun _ => true) i fuel = none := by
  intro fuel
  induction fuel with
  | zero => intro i; rfl
  | succ n ih =>
    intro i
    simp only [untimedWait]
    rw [if_neg (by simp)]
    exact ih (i + 1)

/-- A DataReady whose declared length exceeds the C2A capacity is answered
with the fixed oversize error payload and no payload-buffer read. -/
theorem process_oversize {cfg : Config} {mem : Nat → Nat}
    {processor : List Nat → List Nat} {dlen : Nat}
    (h : dlen > cfg.c2aCap) :
    process_data_from_creator cfg mem processor dlen =
      (errCreatorTooLarge, []) := by
  unfold process_data_from_creator
  rw [if_pos (by omega : dlen > 0), if_pos h]

/-- A DataReady with declared length 0 is answered with the fixed
acknowledgement payload and no payload-buffer read. -/
theorem process_empty (cfg : Config) (mem : Nat → Nat)
    (processor : List Nat → List Nat) :
    process_data_from_creator cfg mem processor 0 = (ackEmpty, []) := by
  rfl

/-- Fact that `process_data_from_creator` never writes the acknowledgement. -/
theorem process_no_ack (cfg : Config) (mem : Nat → Nat)
    (processor : List Nat → List Nat) (dlen : Nat) :
    Event.ackCommand ∉ (process_data_from_creator cfg mem processor dlen).2 := by
  unfold process_data_from_creator
  by_cases h0 : dlen > 0
  · rw [if_pos h0]
    by_cases h1 : dlen > cfg.c2aCap
    · rw [if_pos h1]; simp
    · rw [if_neg h1]
      by_cases h2 : SHM_CONTROL_BLOCK_SIZE + dlen ≤ cfg.mmapSize
      · rw [if_pos h2]; simp
      · rw [if_neg h2]; simp
  · rw [if_neg h0]; simp

/-- Fact that `send_data_to_creator` never writes the acknowledgement. -/
theorem send_no_ack {cfg : Config} {status : Nat → Int}
    {running : Nat → Bool} {fuel : Nat} {data : List Nat} {r : Bool}
    {evts : List Event}
    (h : send_data_to_creator cfg status running fuel data = some (r, evts)) :
    Event.ackCommand ∉ evts := by
  rcases send_inv h with ⟨_, he⟩ | ⟨_, he, _, _⟩ | ⟨_, _, _, he⟩ <;>
    rw [he] <;> simp

/-- The DataReady iteration of the loop: process, send, then acknowledge. -/
theorem loop_step_data {cfg : Config} {mem : Nat → Nat}
    {processor : List Nat → List Nat} {status : Nat → Int}
    {running : Nat → Bool} {fuel : Nat} {dlen : Nat} {ctl : LoopControl}
    {evts : List Event}
    (h : loop_step cfg mem processor status running fuel 1 dlen =
      some (ctl, evts)) :
    ctl = LoopControl.next ∧
    ∃ r se, send_data_to_creator cfg status running fuel
        (process_data_from_creator cfg mem processor dlen).1 =
          some (r, se) ∧
      evts = (process_data_from_creator cfg mem processor dlen).2 ++ se ++
        [Event.ackCommand] := by
  simp only [loop_step, eq_self_iff_true, if_true] at h
  cases hs : send_data_to_creator cfg status running fuel
      (process_data_from_creator cfg mem processor dlen).1 with
  | none => rw [hs] at h; simp at h
  | some res =>
    rw [hs] at h
    simp only [Option.some.injEq, Prod.mk.injEq] at h
    exact ⟨h.1.symm, res.1, res.2, by rw [Prod.mk.eta], h.2.symm⟩

/-- The Shutdown iteration of the loop: acknowledge and exit, nothing
else. -/
theorem loop_step_shutdown (cfg : Config) (mem : Nat → Nat)
    (processor : List Nat → List Nat) (status : Nat → Int)
    (running : Nat → Bool) (fuel : Nat) (dlen : Nat) :
    loop_step cfg mem processor status running fuel 99 dlen =
      some (LoopControl.exit, [Event.ackCommand]) := by
  unfold loop_step
  rw [if_neg (by norm_num), if_pos rfl]

/-- The Idle iteration of the loop: no events, keep polling. -/
theorem loop_step_idle (cfg : Config) (mem : Nat → Nat)
    (processor : List Nat → List Nat) (status : Nat → Int)
    (running : Nat → Bool) (fuel : Nat) (dlen : Nat) :
    loop_step cfg mem processor status running fuel 0 dlen =
      some (LoopControl.next, []) := by
  unfold loop_step
  rw [if_neg (by norm_num), if_neg (by norm_num), if_pos rfl]

/-- If the loop idles (command 0) from iteration `i` for `d` iterations,
the `running` flag stays true meanwhile, and iteration `i + d` reads
command 99, then the loop exits with status 0 within `d + 1` iterations,
whatever commands, lengths and wait observations occur elsewhere. -/
theorem run_loop_shutdown_aux (cfg : Config) (mem : Nat → Nat)
    (processor : List Nat → List Nat) (cmds : Nat → Int)
    (dlens : Nat → Nat) (stats : Nat → Nat → Int)
    (runs : Nat → Nat → Bool) (sendFuel : Nat) (running : Nat → Bool) :
    ∀ (d i fuel : Nat),
      (∀ j, j ≤ d → running (i + j) = true) →
      (∀ j, j < d → cmds (i + j) = 0) →
      cmds (i + d) = 99 →
      run_loop cfg mem processor cmds dlens stats runs sendFuel running i
        (d + fuel + 1) = some 0 := by
  intro d
  induction d with
  | zero =>
    intro i fuel h1 h2 h3
    have hrun : running i = true := by simpa using h1 0 (Nat.zero_le _)
    have hcmd : cmds i = 99 := by simpa using h3
    simp only [Nat.zero_add, run_loop, hrun, hcmd, loop_step_shutdown,
      ite_self]
  | succ d ih =>
    intro i fuel h1 h2 h3
    have hrun : running i = true := by simpa using h1 0 (Nat.zero_le _)
    have hcmd : cmds i = 0 := by simpa using h2 0 (Nat.succ_pos d)
    have harith : d + 1 + fuel + 1 = (d + fuel + 1) + 1 := by omega
    rw [harith]
    simp only [run_loop, hrun, hcmd, loop_step_idle]
    exact ih (i + 1) fuel
      (fun j hj => by
        have := h1 (j + 1) (by omega)
        rwa [show i + (j + 1) = i + 1 + j by omega] at this)
      (fun j hj => by
        have := h2 (j + 1) (by omega)
        rwa [show i + (j + 1) = i + 1 + j by omega] at this)
      (by
        have := h3
        rwa [show i + (d + 1) = i + 1 + d by omega] at this)

/-- Characterisation of the `shm_open` retry loop from attempt `i` with
`r` attempts remaining: it yields attempt `n` exactly when `n` is the
first attempt in range at which the open succeeds. -/
theorem attachLoop_eq_some_iff (openOk : Nat → Bool) :
    ∀ (r i n : Nat),
      attachLoop openOk i r = some n ↔
        (i ≤ n ∧ n < i + r ∧ openOk n = true ∧
          ∀ m, i ≤ m → m < n → openOk m = false) := by
  intro r
  induction r with
  | zero =>
    intro i n
    constructor
    · intro h; cases h
    · rintro ⟨h1, h2, -, -⟩; exfalso; omega
  | succ r ih =>
    intro i n
    simp only [attachLoop]
    by_cases ho : openOk i = true
    · rw [if_pos ho]
      constructor
      · intro h
        injection h with h
        subst h
        exact ⟨le_refl _, by omega, ho,
          fun m hm1 hm2 => ((by omega : False)).elim⟩
      · rintro ⟨h1, h2, h3, h4⟩
        by_cases hn : n = i
        · rw [hn]
        · have hin : i < n := by omega
          have := h4 i (le_refl _) hin
          rw [ho] at this
          cases this
    · rw [if_neg ho]
      have hof : openOk i = false := by
        cases hoi : openOk i with
        | false => rfl
        | true => exact absurd hoi ho
      rw [ih (i + 1) n]
      constructor
      · rintro ⟨h1, h2, h3, h4⟩
        refine ⟨by omega, by omega, h3, fun m hm1 hm2 => ?_⟩
        by_cases hmi : m = i
        · rw [hmi]; exact hof
        · exact h4 m (by omega) hm2
      · rintro ⟨h1, h2, h3, h4⟩
        have hni : n ≠ i := fun hni => by rw [hni, hof] at h3; cases h3
        exact ⟨by omega, by omega, h3, fun m hm1 hm2 => h4 m (by omega) hm2⟩

/-- Fact that `attach` succeeds with the first attempt (among the 5) at which the
segment exists. -/
theorem attach_eq_some_iff (openOk : Nat → Bool) (n : Nat) :
    attach openOk = some n ↔
      (n < attach_attempts ∧ openOk n = true ∧
        ∀ m, m < n → openOk m = false) := by
  unfold attach
  rw [attachLoop_eq_some_iff]
  constructor
  · rintro ⟨-, h2, h3, h4⟩
    exact ⟨by omega, h3, fun m hm => h4 m (Nat.zero_le _) hm⟩
  · rintro ⟨h1, h2, h3⟩
    exact ⟨Nat.zero_le _, by omega, h2, fun m _ hm => h3 m hm⟩

/-- When the open fails at all 5 attempts, `attach` yields nothing. -/
theorem attach_eq_none (openOk : Nat → Bool)
    (h : ∀ k, k < attach_attempts → openOk k = false) :
    attach openOk = none := by
  cases ha : attach openOk with
  | none => rfl
  | some n =>
    have hn := (attach_eq_some_iff openOk n).mp ha
    rw [h n hn.1] at hn
    cases hn.2.1

/-! ## Claims -/

/-- C1: the claim (and the script's own comment on
`SHM_CONTROL_BLOCK_SIZE`) states that the `SharedIPCBidirectional`
record occupies exactly 128 bytes.  On the 64-bit target
(`sizeof(c_size_t) = 8`) the ctypes layout rules insert 4 alignment
bytes after each of the two `c_int32` fields, so
`ctypes.sizeof(SharedIPCBidirectional)` is actually 136; the padding
formula `128 - 4*2 - 8*4` accounts only for a packed layout.  The total
is 128 only when `size_t` is 4 bytes (a 32-bit platform). -/
theorem c1_control_block_sizeof :
    sizeofSharedIPCBidirectional 8 = 136 ∧
    SHM_CONTROL_BLOCK_SIZE ≠ 128 ∧
    sizeofSharedIPCBidirectional 4 = 128 := by decide

/-- C2 counterexample: with `defined_c2a_buffer_size = 64`,
`defined_a2c_buffer_size = 64`, a mapped size of 264, a ready Creator
(`a_to_c_status` observed 0) and declared length 100 > 64, the DataReady
iteration responds with the 29-byte error payload through the normal
respond path: the final state has `a_to_c_status = 1` and
`a_to_c_data_len = 29`, not `a_to_c_status = -1` and
`a_to_c_data_len = 0` as the claim states. -/
theorem c2_oversize_inbound_counterexample :
    loop_step ⟨64, 64, 264⟩ (fun _ => 0) (fun _ => [0]) (fun _ => 0)
        (fun _ => true) 1 1 100 =
      some (LoopControl.next,
        [Event.writeA2C 200 errCreatorTooLarge, Event.setLen 29,
         Event.setStatus 1, Event.ackCommand]) ∧
    (applyEvents ⟨1, 100, 0, 0⟩
        [Event.writeA2C 200 errCreatorTooLarge, Event.setLen 29,
         Event.setStatus 1, Event.ackCommand]).a_to_c_status = 1 ∧
    (applyEvents ⟨1, 100, 0, 0⟩
        [Event.writeA2C 200 errCreatorTooLarge, Event.setLen 29,
         Event.setStatus 1, Event.ackCommand]).a_to_c_data_len = 29 ∧
    ¬ ((applyEvents ⟨1, 100, 0, 0⟩
        [Event.writeA2C 200 errCreatorTooLarge, Event.setLen 29,
         Event.setStatus 1, Event.ackCommand]).a_to_c_status = -1 ∧
       (applyEvents ⟨1, 100, 0, 0⟩
        [Event.writeA2C 200 errCreatorTooLarge, Event.setLen 29,
         Event.setStatus 1, Event.ackCommand]).a_to_c_data_len = 0) := by
  decide

/-- C2 (amended): when the declared inbound length exceeds
`defined_c2a_buffer_size`, handling DataReady reads no bytes from the
C2A buffer (no read event, and the result does not depend on the memory
or the processor) and substitutes the fixed 29-byte error payload;
that payload goes through the normal respond path, so a successful
respond leaves `a_to_c_status = 1` and `a_to_c_data_len = 29`, and the
`a_to_c_status = -1` / `a_to_c_data_len = 0` outcome arises only when
the error payload itself exceeds `defined_a2c_buffer_size`. -/
theorem c2_oversize_inbound :
    ∀ (cfg : Config) (mem : Nat → Nat) (processor : List Nat → List Nat)
      (dlen : Nat),
      dlen > cfg.c2aCap →
      process_data_from_creator cfg mem processor dlen =
        (errCreatorTooLarge, []) ∧
      (∀ (status : Nat → Int) (running : Nat → Bool) (fuel : Nat)
        (evts : List Event) (s0 : ShmState),
        send_data_to_creator cfg status running fuel errCreatorTooLarge =
          some (true, evts) →
        (applyEvents s0 evts).a_to_c_status = 1 ∧
        (applyEvents s0 evts).a_to_c_data_len = 29) ∧
      (∀ (status : Nat → Int) (running : Nat → Bool) (fuel : Nat)
        (evts : List Event) (s0 : ShmState),
        errCreatorTooLarge.length > cfg.a2cCap →
        send_data_to_creator cfg status running fuel errCreatorTooLarge =
          some (false, evts) →
        evts ≠ [] →
        (applyEvents s0 evts).a_to_c_status = -1 ∧
        (applyEvents s0 evts).a_to_c_data_len = 0) := by
  intro cfg mem processor dlen hlen
  refine ⟨process_oversize hlen, ?_, ?_⟩
  · intro status running fuel evts s0 hsend
    rcases send_inv hsend with ⟨hr, -⟩ | ⟨hr, -, -, -⟩ | ⟨-, -, -, he⟩
    · cases hr
    · cases hr
    · subst he
      refine ⟨by simp [applyEvents, applyEvent], ?_⟩
      simp only [applyEvents, List.foldl, applyEvent]
      decide
  · intro status running fuel evts s0 hbig hsend hne
    rcases send_inv hsend with ⟨-, he⟩ | ⟨-, he, -, -⟩ | ⟨hr, -, -, -⟩
    · exact absurd he hne
    · subst he
      exact ⟨by simp [applyEvents, applyEvent], by simp [applyEvents, applyEvent]⟩
    · cases hr

/-- C2 witness: the amended statement at `defined_c2a_buffer_size = 64`,
declared length 100, and a successful respond of the error payload. -/
theorem c2_oversize_inbound_witness :
    process_data_from_creator ⟨64, 64, 264⟩ (fun _ => 0) (fun _ => [0])
        100 = (errCreatorTooLarge, []) ∧
    (applyEvents ⟨1, 100, 0, 0⟩
        [Event.writeA2C 200 errCreatorTooLarge, Event.setLen 29,
         Event.setStatus 1]).a_to_c_status = 1 ∧
    (applyEvents ⟨1, 100, 0, 0⟩
        [Event.writeA2C 200 errCreatorTooLarge, Event.setLen 29,
         Event.setStatus 1]).a_to_c_data_len = 29 :=
  have hmain := c2_oversize_inbound ⟨64, 64, 264⟩ (fun _ => 0)
    (fun _ => [0]) 100 (by decide)
  have hsend : send_data_to_creator ⟨64, 64, 264⟩ (fun _ => 0)
      (fun _ => true) 1 errCreatorTooLarge =
      some (true, [Event.writeA2C 200 errCreatorTooLarge, Event.setLen 29,
        Event.setStatus 1]) := by decide
  have hp := hmain.2.1 (fun _ => 0) (fun _ => true) 1
    [Event.writeA2C 200 errCreatorTooLarge, Event.setLen 29,
     Event.setStatus 1] ⟨1, 100, 0, 0⟩ hsend
  ⟨hmain.1, hp.1, hp.2⟩

/-- C3: the claim states that the oversize-response branch of the respond
operation waits for `a_to_c_status == 0` for at most a bounded timeout
and always terminates.  The wait at that branch has no timeout: when the
observed status stays 1 (the Creator never consumes) and no shutdown
arrives, `send_data_to_creator` is still busy-waiting after any number
of polls, in particular after more polls than the 5-second budget of the
neighbouring wait. -/
theorem c3_oversize_respond_wait_unbounded :
    ∀ (cfg : Config) (data : List Nat) (fuel : Nat),
      data.length > cfg.a2cCap →
      send_data_to_creator cfg (fun _ => 1) (fun _ => true) fuel data =
        none := by
  intro cfg data fuel h
  simp only [send_data_to_creator, if_pos h, untimedWait_stuck]

/-- C3 witness: a 2-byte response against a 1-byte A2C capacity, with
2000 polls of fuel (more than the 1000 polls of the 5-second budget):
the respond operation has still not returned. -/
theorem c3_oversize_respond_wait_unbounded_witness :
    ([0, 0] : List Nat).length > (Config.mk 1 1 300).a2cCap ∧
    send_data_to_creator ⟨1, 1, 300⟩ (fun _ => 1) (fun _ => true) 2000
        [0, 0] = none :=
  ⟨by decide,
    c3_oversize_respond_wait_unbounded ⟨1, 1, 300⟩ [0, 0] 2000 (by decide)⟩

/-- C4: in every successful respond, the write events set
`a_to_c_data_len` to the response length strictly before setting
`a_to_c_status = 1`, and no intermediate state (starting from the
ready state the wait guarantees, `a_to_c_status = 0`) shows status 1
with a stale length. -/
theorem c4_len_set_before_status :
    ∀ (cfg : Config) (status : Nat → Int) (running : Nat → Bool)
      (fuel : Nat) (data : List Nat) (evts : List Event) (s0 : ShmState),
      send_data_to_creator cfg status running fuel data =
        some (true, evts) →
      s0.a_to_c_status = 0 →
      (∃ i j : Nat, i < j ∧
        evts.get? i = some (Event.setLen data.length) ∧
        evts.get? j = some (Event.setStatus 1)) ∧
      ∀ p, p ≤ evts.length →
        (applyEvents s0 (evts.take p)).a_to_c_status = 1 →
        (applyEvents s0 (evts.take p)).a_to_c_data_len = data.length := by
  intro cfg status running fuel data evts s0 hsend hs0
  rcases send_inv hsend with ⟨hr, -⟩ | ⟨hr, -, -, -⟩ | ⟨-, -, -, he⟩
  · cases hr
  · cases hr
  · subst he
    refine ⟨⟨1, 2, by omega, rfl, rfl⟩, ?_⟩
    intro p hp
    simp only [List.length_cons, List.length_nil] at hp
    interval_cases p <;>
      simp only [List.take, applyEvents, List.foldl, applyEvent] <;>
      intro hc
    · rw [hs0] at hc; cases hc
    · rw [hs0] at hc; cases hc
    · rw [hs0] at hc; cases hc
    · trivial

/-- C4 witness: a successful 3-byte respond; after all three writes the
state shows status 1 and the new length 3. -/
theorem c4_len_set_before_status_witness :
    send_data_to_creator ⟨64, 64, 264⟩ (fun _ => 0) (fun _ => true) 1
        [1, 2, 3] =
      some (true, [Event.writeA2C 200 [1, 2, 3], Event.setLen 3,
        Event.setStatus 1]) ∧
    (ShmState.mk 0 0 0 7).a_to_c_status = 0 ∧
    (applyEvents ⟨0, 0, 0, 7⟩
        (List.take 3 [Event.writeA2C 200 [1, 2, 3], Event.setLen 3,
          Event.setStatus 1])).a_to_c_data_len = 3 :=
  have h : send_data_to_creator ⟨64, 64, 264⟩ (fun _ => 0) (fun _ => true)
      1 [1, 2, 3] =
      some (true, [Event.writeA2C 200 [1, 2, 3], Event.setLen 3,
        Event.setStatus 1]) := by decide
  ⟨h, rfl,
    (c4_len_set_before_status ⟨64, 64, 264⟩ (fun _ => 0) (fun _ => true) 1
      [1, 2, 3] _ ⟨0, 0, 0, 7⟩ h rfl).2 3 (by decide) (by decide)⟩

/-- C5: every completed DataReady iteration consists of the processing
events, then the respond events, then — last and exactly once — the
acknowledgement resetting `c_to_a_command` to 0; this holds for
processing failures (error payloads) and respond failures (any result
`r`) alike. -/
theorem c5_ack_only_after_respond :
    ∀ (cfg : Config) (mem : Nat → Nat) (processor : List Nat → List Nat)
      (status : Nat → Int) (running : Nat → Bool) (fuel dlen : Nat)
      (ctl : LoopControl) (evts : List Event),
      loop_step cfg mem processor status running fuel 1 dlen =
        some (ctl, evts) →
      ctl = LoopControl.next ∧
      ∃ r se,
        send_data_to_creator cfg status running fuel
            (process_data_from_creator cfg mem processor dlen).1 =
          some (r, se) ∧
        evts = (process_data_from_creator cfg mem processor dlen).2 ++
          se ++ [Event.ackCommand] ∧
        Event.ackCommand ∉
          (process_data_from_creator cfg mem processor dlen).2 ∧
        Event.ackCommand ∉ se := by
  intro cfg mem processor status running fuel dlen ctl evts h
  obtain ⟨hctl, r, se, hsend, hevts⟩ := loop_step_data h
  exact ⟨hctl, r, se, hsend, hevts,
    process_no_ack cfg mem processor dlen, send_no_ack hsend⟩

/-- C5 witness: a completed 10-byte DataReady iteration; the event list
ends with the acknowledgement. -/
theorem c5_ack_only_after_respond_witness :
    loop_step ⟨64, 64, 300⟩ (fun _ => 0) (fun _ => [7]) (fun _ => 0)
        (fun _ => true) 1 1 10 =
      some (LoopControl.next,
        [Event.readC2A 136 10, Event.writeA2C 200 [7], Event.setLen 1,
         Event.setStatus 1, Event.ackCommand]) ∧
    (LoopControl.next = LoopControl.next ∧
      ∃ r se,
        send_data_to_creator ⟨64, 64, 300⟩ (fun _ => 0) (fun _ => true) 1
            (process_data_from_creator ⟨64, 64, 300⟩ (fun _ => 0)
              (fun _ => [7]) 10).1 =
          some (r, se) ∧
        [Event.readC2A 136 10, Event.writeA2C 200 [7], Event.setLen 1,
         Event.setStatus 1, Event.ackCommand] =
          (process_data_from_creator ⟨64, 64, 300⟩ (fun _ => 0)
            (fun _ => [7]) 10).2 ++ se ++ [Event.ackCommand] ∧
        Event.ackCommand ∉
          (process_data_from_creator ⟨64, 64, 300⟩ (fun _ => 0)
            (fun _ => [7]) 10).2 ∧
        Event.ackCommand ∉ se) :=
  have h : loop_step ⟨64, 64, 300⟩ (fun _ => 0) (fun _ => [7])
      (fun _ => 0) (fun _ => true) 1 1 10 =
      some (LoopControl.next,
        [Event.readC2A 136 10, Event.writeA2C 200 [7], Event.setLen 1,
         Event.setStatus 1, Event.ackCommand]) := by decide
  ⟨h, c5_ack_only_after_respond ⟨64, 64, 300⟩ (fun _ => 0) (fun _ => [7])
    (fun _ => 0) (fun _ => true) 1 10 LoopControl.next _ h⟩

/-- C6: on command 99 an iteration only acknowledges (resets
`c_to_a_command` to 0) and exits the loop; and the whole polling loop,
after idling up to iteration `i` where command 99 is read, terminates
with exit status 0 whatever commands, lengths or wait observations occur
at any other point — the script then only runs its cleanup and finishes
with a clean exit. -/
theorem c6_shutdown_command :
    (∀ (cfg : Config) (mem : Nat → Nat) (processor : List Nat → List Nat)
      (status : Nat → Int) (running : Nat → Bool) (fuel dlen : Nat),
      loop_step cfg mem processor status running fuel 99 dlen =
        some (LoopControl.exit, [Event.ackCommand])) ∧
    (∀ (cfg : Config) (mem : Nat → Nat) (processor : List Nat → List Nat)
      (cmds : Nat → Int) (dlens : Nat → Nat) (stats : Nat → Nat → Int)
      (runs : Nat → Nat → Bool) (sendFuel : Nat) (running : Nat → Bool)
      (i fuel : Nat),
      (∀ j, j ≤ i → running j = true) →
      (∀ j, j < i → cmds j = 0) →
      cmds i = 99 →
      run_loop cfg mem processor cmds dlens stats runs sendFuel running 0
        (i + fuel + 1) = some 0) := by
  constructor
  · intro cfg mem processor status running fuel dlen
    exact loop_step_shutdown cfg mem processor status running fuel dlen
  · intro cfg mem processor cmds dlens stats runs sendFuel running i fuel
      h1 h2 h3
    exact run_loop_shutdown_aux cfg mem processor cmds dlens stats runs
      sendFuel running i 0 fuel
      (fun j hj => by simpa using h1 j hj)
      (fun j hj => by simpa using h2 j hj)
      (by simpa using h3)

/-- C6 witness: one idle iteration, then command 99 at iteration 1 with
further (unknown) commands 42 posted afterwards: the loop exits with
status 0. -/
theorem c6_shutdown_command_witness :
    loop_step ⟨4, 4, 200⟩ (fun _ => 0) (fun _ => []) (fun _ => 0)
        (fun _ => true) 0 99 5 =
      some (LoopControl.exit, [Event.ackCommand]) ∧
    run_loop ⟨4, 4, 200⟩ (fun _ => 0) (fun _ => [])
      (fun j => if j = 0 then 0 else if j = 1 then 99 else 42)
      (fun _ => 0) (fun _ _ => 0) (fun _ _ => true) 0 (fun _ => true) 0 4 =
      some 0 :=
  ⟨c6_shutdown_command.1 ⟨4, 4, 200⟩ (fun _ => 0) (fun _ => [])
      (fun _ => 0) (fun _ => true) 0 5,
    c6_shutdown_command.2 ⟨4, 4, 200⟩ (fun _ => 0) (fun _ => [])
      (fun j => if j = 0 then 0 else if j = 1 then 99 else 42)
      (fun _ => 0) (fun _ _ => 0) (fun _ _ => true) 0 (fun _ => true) 1 2
      (fun j _ => rfl)
      (fun j hj => by
        have hj0 : j = 0 := by omega
        rw [hj0]
        rfl)
      rfl⟩

/-- C7: attachment tries `shm_open` at most 5 times — it succeeds exactly
at the first attempt at which the segment exists, provided that is
within the 5 attempts; when all 5 attempts fail the startup is fatal
with exit status 1; and the backoff delays start at 0.1 s and grow by
the factor 3/2 after each failure. -/
theorem c7_attach_retry :
    (∀ (openOk : Nat → Bool) (n : Nat),
      attach openOk = some n ↔
        (n < attach_attempts ∧ openOk n = true ∧
          ∀ m, m < n → openOk m = false)) ∧
    (∀ (openOk : Nat → Bool) (fstatOk : Bool) (reportedSize : Nat)
      (mmapOk structOk : Bool) (c2a a2c : Nat),
      (∀ k, k < attach_attempts → openOk k = false) →
      startup openOk fstatOk reportedSize mmapOk structOk c2a a2c =
        StartupResult.fatal 1 []) ∧
    attach_attempts = 5 ∧
    attach_delay 0 = 1 / 10 ∧
    (∀ k, attach_delay (k + 1) = attach_delay k * (3 / 2)) := by
  refine ⟨attach_eq_some_iff, ?_, rfl, ?_, ?_⟩
  · intro openOk fstatOk reportedSize mmapOk structOk c2a a2c h
    unfold startup
    rw [attach_eq_none openOk h]
  · unfold attach_delay; norm_num
  · intro k; unfold attach_delay; ring

/-- C7 witness: a segment that exists from the 4th call on is attached at
attempt index 3 (the 4th attempt); a segment that never exists makes
startup fatal with exit status 1. -/
theorem c7_attach_retry_witness :
    attach (fun k => decide (k = 3)) = some 3 ∧
    startup (fun _ => false) true 300 true true 7 9 =
      StartupResult.fatal 1 [] :=
  ⟨(c7_attach_retry.1 (fun k => decide (k = 3)) 3).mpr
      ⟨by decide, by decide, fun m hm => by interval_cases m <;> rfl⟩,
    c7_attach_retry.2.1 (fun _ => false) true 300 true true 7 9
      (fun k _ => rfl)⟩

/-- C8: when the mapping succeeded but a buffer size read from the
control block is zero, startup is fatal: the mapping and the descriptor
are released (in that order) and the process exits with status 1; the
polling loop is never entered — `acceptor_main` yields `some 1` whatever
the loop's streams and fuel are, even a zero loop fuel. -/
theorem c8_zero_buffer_size_fatal :
    ∀ (openOk : Nat → Bool) (fstatOk : Bool) (reportedSize : Nat)
      (mmapOk structOk : Bool) (c2aSize a2cSize : Nat),
      attach openOk ≠ none →
      fstatOk = true → mmapOk = true → structOk = true →
      (c2aSize = 0 ∨ a2cSize = 0) →
      startup openOk fstatOk reportedSize mmapOk structOk c2aSize
          a2cSize =
        StartupResult.fatal 1 [Cleanup.closeMmap, Cleanup.closeFd] ∧
      ∀ (mem : Nat → Nat) (processor : List Nat → List Nat)
        (cmds : Nat → Int) (dlens : Nat → Nat) (stats : Nat → Nat → Int)
        (runs : Nat → Nat → Bool) (sendFuel : Nat) (running : Nat → Bool)
        (loopFuel : Nat),
        acceptor_main openOk fstatOk reportedSize mmapOk structOk c2aSize
          a2cSize mem processor cmds dlens stats runs sendFuel running
          loopFuel = some 1 := by
  intro openOk fstatOk reportedSize mmapOk structOk c2aSize a2cSize hat
    hf hm hs hz
  subst hf; subst hm; subst hs
  have hst : startup openOk true reportedSize true true c2aSize a2cSize =
      StartupResult.fatal 1 [Cleanup.closeMmap, Cleanup.closeFd] := by
    unfold startup
    split
    · rename_i heq
      exact absurd heq hat
    · rw [if_neg (by simp), if_neg (by simp), if_neg (by simp),
        if_pos hz]
  refine ⟨hst, ?_⟩
  intro mem processor cmds dlens stats runs sendFuel running loopFuel
  unfold acceptor_main
  rw [hst]

/-- C8 witness: `defined_c2a_buffer_size = 0` read at startup gives a
fatal exit 1 with mapping and descriptor released, and the loop never
runs (loop fuel 0). -/
theorem c8_zero_buffer_size_fatal_witness :
    startup (fun _ => true) true 100 true true 0 5 =
      StartupResult.fatal 1 [Cleanup.closeMmap, Cleanup.closeFd] ∧
    acceptor_main (fun _ => true) true 100 true true 0 5 (fun _ => 0)
      (fun _ => []) (fun _ => 0) (fun _ => 0) (fun _ _ => 0)
      (fun _ _ => true) 0 (fun _ => true) 0 = some 1 :=
  have h := c8_zero_buffer_size_fatal (fun _ => true) true 100 true true
    0 5 (by decide) rfl rfl rfl (Or.inl rfl)
  ⟨h.1, h.2 (fun _ => 0) (fun _ => []) (fun _ => 0) (fun _ => 0)
    (fun _ _ => 0) (fun _ _ => true) 0 (fun _ => true) 0⟩

/-- C9: every payload write of the respond operation lands at offset
`SHM_CONTROL_BLOCK_SIZE + defined_c2a_buffer_size`, writes exactly the
response bytes and stays within the mapped region; when
`offset + response_length` exceeds the mapped size the respond fails
with no payload write at all (a non-fatal failure — the send merely
returns `false`). -/
theorem c9_a2c_offset_and_bounds :
    ∀ (cfg : Config) (status : Nat → Int) (running : Nat → Bool)
      (fuel : Nat) (data : List Nat) (r : Bool) (evts : List Event),
      send_data_to_creator cfg status running fuel data = some (r, evts) →
      (∀ off d, Event.writeA2C off d ∈ evts →
        off = SHM_CONTROL_BLOCK_SIZE + cfg.c2aCap ∧ d = data ∧
        off + d.length ≤ cfg.mmapSize) ∧
      (cfg.mmapSize < SHM_CONTROL_BLOCK_SIZE + cfg.c2aCap + data.length →
        r = false ∧ ∀ off d, Event.writeA2C off d ∉ evts) := by
  intro cfg status running fuel data r evts h
  rcases send_inv h with ⟨hr, he⟩ | ⟨hr, he, -, -⟩ | ⟨hr, -, hb, he⟩
  · subst he
    exact ⟨fun off d hmem => absurd hmem (List.not_mem_nil _),
      fun _ => ⟨hr, fun off d => List.not_mem_nil _⟩⟩
  · subst he
    refine ⟨fun off d hmem => ?_, fun _ => ⟨hr, fun off d hmem => ?_⟩⟩
    · simp at hmem
    · simp at hmem
  · subst he
    refine ⟨fun off d hmem => ?_, fun hlt => absurd hb (by omega)⟩
    simp only [List.mem_cons, List.not_mem_nil, or_false] at hmem
    rcases hmem with h1 | h1 | h1
    · injection h1 with hoff hd
      subst hoff; subst hd
      exact ⟨rfl, rfl, by omega⟩
    · cases h1
    · cases h1

/-- C9 witness: a mapped region of 100 bytes is smaller than
`SHM_CONTROL_BLOCK_SIZE + defined_c2a_buffer_size + 3`, so the 3-byte
respond fails before writing anything. -/
theorem c9_a2c_offset_and_bounds_witness :
    send_data_to_creator ⟨64, 64, 100⟩ (fun _ => 0) (fun _ => true) 1
        [1, 2, 3] = some (false, []) ∧
    (false = false ∧
      Event.writeA2C 200 [1, 2, 3] ∉ ([] : List Event)) :=
  have h : send_data_to_creator ⟨64, 64, 100⟩ (fun _ => 0) (fun _ => true)
      1 [1, 2, 3] = some (false, []) := by decide
  have hc := (c9_a2c_offset_and_bounds ⟨64, 64, 100⟩ (fun _ => 0)
    (fun _ => true) 1 [1, 2, 3] false [] h).2 (by decide)
  ⟨h, hc.1.symm ▸ ⟨rfl, hc.2 200 [1, 2, 3]⟩⟩

/-- C10: a DataReady with declared length 0 reads no bytes from the C2A
buffer and does not invoke the content-processing routine (the result is
the fixed acknowledgement payload, for every processor and memory
content); the payload is sent through the normal respond path and the
iteration ends with the command acknowledgement. -/
theorem c10_empty_message_ack :
    ∀ (cfg : Config) (mem : Nat → Nat) (processor : List Nat → List Nat)
      (status : Nat → Int) (running : Nat → Bool) (fuel : Nat),
      process_data_from_creator cfg mem processor 0 = (ackEmpty, []) ∧
      ∀ (out : LoopControl × List Event),
        loop_step cfg mem processor status running fuel 1 0 = some out →
        out.1 = LoopControl.next ∧
        ∃ r se,
          send_data_to_creator cfg status running fuel ackEmpty =
            some (r, se) ∧
          out.2 = se ++ [Event.ackCommand] := by
  intro cfg mem processor status running fuel
  refine ⟨process_empty cfg mem processor, ?_⟩
  intro out h
  obtain ⟨hctl, r, se, hsend, hevts⟩ := loop_step_data h
  rw [process_empty cfg mem processor] at hsend hevts
  exact ⟨hctl, r, se, hsend, by simpa using hevts⟩

/-- C10 witness: an empty DataReady answered by the 34-byte fixed
acknowledgement payload through the normal respond path. -/
theorem c10_empty_message_ack_witness :
    process_data_from_creator ⟨64, 64, 300⟩ (fun _ => 0) (fun _ => [7])
        0 = (ackEmpty, []) ∧
    loop_step ⟨64, 64, 300⟩ (fun _ => 0) (fun _ => [7]) (fun _ => 0)
        (fun _ => true) 1 1 0 =
      some (LoopControl.next,
        [Event.writeA2C 200 ackEmpty, Event.setLen 34, Event.setStatus 1,
         Event.ackCommand]) ∧
    (LoopControl.next = LoopControl.next ∧
      ∃ r se,
        send_data_to_creator ⟨64, 64, 300⟩ (fun _ => 0) (fun _ => true) 1
            ackEmpty = some (r, se) ∧
        [Event.writeA2C 200 ackEmpty, Event.setLen 34, Event.setStatus 1,
         Event.ackCommand] = se ++ [Event.ackCommand]) :=
  have h : loop_step ⟨64, 64, 300⟩ (fun _ => 0) (fun _ => [7])
      (fun _ => 0) (fun _ => true) 1 1 0 =
      some (LoopControl.next,
        [Event.writeA2C 200 ackEmpty, Event.setLen 34, Event.setStatus 1,
         Event.ackCommand]) := by decide
  have hm := c10_empty_message_ack ⟨64, 64, 300⟩ (fun _ => 0)
    (fun _ => [7]) (fun _ => 0) (fun _ => true) 1
  ⟨hm.1, h, hm.2 _ h⟩
